import Mathlib

/-!
Verification of the RemoteController connection engine
(src/RemoteController/base_connection.py).

Shallow embedding: bytes are lists of naturals (each byte a value below 256);
a float32 throttle is represented by its 32-bit big-endian bit pattern, which
is exactly what the wire carries and what the spec compares ("exact bit
pattern").  Python exceptions are an explicit error type threaded through
Except.  The abstract transport (_check / _send_data) is external input: a
tick takes the probe result as a parameter and records the frame handed to
the send operation, the callback invoked, and any exception escaping the
tick body (which _run wraps into ConnectionDataFetchException and which
terminates the loop).
-/

namespace RemoteController

/-- Python exception kinds that the embedded code can raise:
AttributeError (access to the never-assigned instance attribute _queue,
which in the source is only a class-level type annotation), IndexError
(list.pop(0) on an empty list), and struct.error (struct.pack/struct.unpack
size or range mismatch). -/
inductive PyError where
  | attributeError
  | indexError
  | structError
deriving DecidableEq, Repr

/-- Byte strings on the wire: lists of naturals, each below 256 by
construction of the encoders. -/
abbrev Bytes := List Nat

/-- Big-endian interpretation of a byte list, as struct.unpack does. -/
def bytesToNatBE (l : Bytes) : Nat :=
  l.foldl (fun acc b => acc * 256 + b) 0

/-- Big-endian 16-bit encoding, as struct.pack format H produces. -/
def u16be (n : Nat) : Bytes :=
  [n / 256 % 256, n % 256]

/-- Big-endian 32-bit encoding of a float32 bit pattern, as struct.pack
format f produces on the wire. -/
def u32be (n : Nat) : Bytes :=
  [n / 2 ^ 24 % 256, n / 2 ^ 16 % 256, n / 2 ^ 8 % 256, n % 256]

/-- Embeds struct.pack of Python format string >H B f (used at
base_connection.py line 55): a 16-bit header, an 8-bit command and a
float32, 7 bytes total.  struct.pack raises struct.error when an integer
argument is out of range for its fixed-width format; the float argument is
carried as its 32-bit pattern. -/
def struct_pack_HBf (h b fbits : Nat) : Except PyError Bytes :=
  if h < 2 ^ 16 ∧ b < 2 ^ 8 ∧ fbits < 2 ^ 32 then
    .ok (u16be h ++ [b] ++ u32be fbits)
  else
    .error .structError

/-- Embeds struct.pack of format >H (used at line 68): one 16-bit value. -/
def struct_pack_H (h : Nat) : Except PyError Bytes :=
  if h < 2 ^ 16 then .ok (u16be h) else .error .structError

/-- Embeds struct.unpack of format >H (line 80): requires exactly 2 bytes,
raising struct.error otherwise. -/
def struct_unpack_H (l : Bytes) : Except PyError Nat :=
  if l.length = 2 then .ok (bytesToNatBE l) else .error .structError

/-- Embeds struct.unpack of format >H B f (line 83): requires exactly
7 bytes, raising struct.error otherwise; yields header, command and the
float32 bit pattern. -/
def struct_unpack_HBf (l : Bytes) : Except PyError (Nat × Nat × Nat) :=
  if l.length = 7 then
    .ok (bytesToNatBE (l.take 2), l.getD 2 0, bytesToNatBE (l.drop 3))
  else
    .error .structError

/-- Outcome of Connection._handle_data on one inbound frame: which callback
was invoked with which arguments, if any. -/
inductive HandleEvent where
  | noCallback
  | commandCb (command : Nat) (throttleBits : Nat)
  | binaryCb (payload : Bytes)
deriving DecidableEq, Repr

/-- Embeds Connection._handle_data (lines 71-86): unpack the first two bytes
as the header; on 0xEEAF unpack the whole payload as a command frame and
invoke on_command_payload; on 0xEEAE invoke on_binary_payload with the rest;
any other header matches no case and nothing happens.  Exceptions from
struct.unpack propagate. -/
def handle_data (payload : Bytes) : Except PyError HandleEvent :=
  match struct_unpack_H (payload.take 2) with
  | .error e => .error e
  | .ok header =>
    if header = 0xEEAF then
      match struct_unpack_HBf payload with
      | .error e => .error e
      | .ok (_, command, throttle) => .ok (.commandCb command throttle)
    else if header = 0xEEAE then
      .ok (.binaryCb (payload.drop 2))
    else
      .ok .noCallback

/-- Connection state visible to the embedded operations.  queue models the
_queue attribute: none means the attribute was never assigned (in the source
it exists only as the class-level annotation at line 9 and no __init__ or
subclass ever assigns it), so attribute access raises AttributeError;
some q is the list of pending outbound frames.  cancelled models whether
the task created at line 23 has had cancellation requested.  The interval
and the two callback handles are construction parameters that never change
and do not affect queue or lifecycle semantics; callbacks are observed
through HandleEvent. -/
structure ConnState where
  queue : Option (List Bytes)
  cancelled : Bool
deriving DecidableEq, Repr

/-- Embeds Connection.__init__ (lines 11-23): stores interval and the
callbacks, creates the polling task (not yet cancelled).  It never assigns
_queue, so the queue field is none. -/
def Connection.init : ConnState :=
  { queue := none, cancelled := false }

/-- The queue update shared by send_command (line 56) and
send_binary_payload (line 69): insert(0, payload) when send_immediately,
append(payload) otherwise. -/
def enqueue (q : List Bytes) (payload : Bytes) (send_immediately : Bool) : List Bytes :=
  if send_immediately then payload :: q else q ++ [payload]

/-- Embeds Connection.send_command (lines 43-56): pack the frame with
struct.pack of >H B f at header 0xEEAF, then update _queue; accessing the
never-assigned _queue raises AttributeError. -/
def send_command (st : ConnState) (command : Nat) (throttleBits : Nat)
    (send_immediately : Bool) : Except PyError ConnState :=
  match struct_pack_HBf 0xEEAF command throttleBits with
  | .error e => .error e
  | .ok payload =>
    match st.queue with
    | none => .error .attributeError
    | some q => .ok { st with queue := some (enqueue q payload send_immediately) }

/-- Embeds Connection.send_binary_payload (lines 58-69): pack header 0xEEAE
with struct.pack of >H, concatenate the payload, then update _queue;
accessing the never-assigned _queue raises AttributeError. -/
def send_binary_payload (st : ConnState) (binary_payload : Bytes)
    (send_immediately : Bool) : Except PyError ConnState :=
  match struct_pack_H 0xEEAE with
  | .error e => .error e
  | .ok header =>
    match st.queue with
    | none => .error .attributeError
    | some q =>
      .ok { st with queue := some (enqueue q (header ++ binary_payload) send_immediately) }

/-- Embeds Connection.stop (lines 88-93): self._task is always assigned by
__init__ and is truthy, and asyncio.Task.cancel never raises and may be
called repeatedly, so stop is a total function that requests cancellation. -/
def stop (st : ConnState) : ConnState :=
  { st with cancelled := true }

/-- Observable outcome of one loop tick (one iteration of the while loop in
Connection._run, line 36): the callback invoked via _handle_data, the frame
handed to the abstract _send_data operation, and the exception escaping the
tick body, if any (which _run then wraps into ConnectionDataFetchException,
terminating the loop). -/
structure TickResult where
  handled : HandleEvent
  sent : Option Bytes
  error : Option PyError
deriving DecidableEq, Repr

/-- Python truthiness of the _check result at line 36: None is falsy and an
empty byte string is falsy; only a non-empty byte string takes the receive
branch. -/
def truthyBytes : Option Bytes → Bool
  | none => false
  | some b => !b.isEmpty

/-- Embeds one tick of Connection._run (line 36), with the transport probe
result supplied as input: if the result is truthy, call _handle_data on it;
else evaluate self._queue.pop(0) (AttributeError when _queue was never
assigned, IndexError when it is empty) and hand the popped frame to
_send_data. -/
def tick (st : ConnState) (checkResult : Option Bytes) : TickResult × ConnState :=
  if truthyBytes checkResult then
    match handle_data (checkResult.getD []) with
    | .ok ev => ({ handled := ev, sent := none, error := none }, st)
    | .error e => ({ handled := .noCallback, sent := none, error := some e }, st)
  else
    match st.queue with
    | none => ({ handled := .noCallback, sent := none, error := some .attributeError }, st)
    | some [] => ({ handled := .noCallback, sent := none, error := some .indexError }, st)
    | some (f :: rest) =>
      ({ handled := .noCallback, sent := some f, error := none }, { st with queue := some rest })

/-- Embeds the while loop of Connection._run (lines 32-41) over a finite
list of probe results, one per tick.  Cancellation is observed at the sleep
at the top of each iteration (asyncio.CancelledError is caught and the loop
exits silently); an exception escaping a tick body is wrapped into
ConnectionDataFetchException and terminates the loop, so the errored tick is
the last element of the trace. -/
def runLoop : ConnState → List (Option Bytes) → List TickResult
  | _, [] => []
  | st, c :: cs =>
    if st.cancelled then []
    else
      let (r, st2) := tick st c
      if r.error.isSome then [r] else r :: runLoop st2 cs

/-- Big-endian 32-bit round trip: unpacking the four bytes packed from a
32-bit pattern recovers the pattern. -/
theorem bytesToNatBE_u32be (n : Nat) (h : n < 2 ^ 32) :
    bytesToNatBE (u32be n) = n := by
  simp only [bytesToNatBE, u32be, List.foldl_cons, List.foldl_nil]
  omega

/-- C1: the claim states that send_command and send_binary_payload on a
constructed connection never raise and enqueue the encoded frame.  The code
contradicts this: _queue is only a class-level annotation and no __init__ or
subclass assigns it, so on a freshly constructed connection both send
methods raise AttributeError before any frame reaches a queue. -/
theorem send_on_constructed_connection_raises :
    send_command Connection.init 5 0 false = .error .attributeError ∧
    send_binary_payload Connection.init [1, 2] false = .error .attributeError := by
  constructor <;> rfl

/-- C2: the claim states that a tick with no inbound data and an empty Send
Queue performs no send, raises no failure, and the loop continues.  The code
contradicts this: line 36 evaluates self._queue.pop(0) without checking
emptiness, so the tick raises IndexError, _run wraps it into
ConnectionDataFetchException, and the loop terminates (a second scheduled
tick never runs). -/
theorem empty_queue_idle_tick_fails :
    runLoop { queue := some [], cancelled := false } [none, none] =
      [{ handled := .noCallback, sent := none, error := some .indexError }] := by
  rfl

/-- C3: for every command in 0..255 and every float32 bit pattern, packing
the 7-byte command frame succeeds, decoding it via _handle_data recovers the
same command and the bit-identical throttle, and a tick that receives the
frame invokes the command callback with exactly that pair and nothing else. -/
theorem command_round_trip (st : ConnState) (command throttleBits : Nat)
    (hc : command < 256) (ht : throttleBits < 2 ^ 32) :
    struct_pack_HBf 0xEEAF command throttleBits =
      .ok (0xEE :: 0xAF :: command :: u32be throttleBits) ∧
    (0xEE :: 0xAF :: command :: u32be throttleBits).length = 7 ∧
    handle_data (0xEE :: 0xAF :: command :: u32be throttleBits) =
      .ok (.commandCb command throttleBits) ∧
    (tick st (some (0xEE :: 0xAF :: command :: u32be throttleBits))).1 =
      { handled := .commandCb command throttleBits, sent := none, error := none } := by
  have hpack : struct_pack_HBf 0xEEAF command throttleBits =
      .ok (0xEE :: 0xAF :: command :: u32be throttleBits) := by
    simp only [struct_pack_HBf]
    rw [if_pos ⟨by norm_num, hc, ht⟩]
    rfl
  have hdec0 : handle_data (0xEE :: 0xAF :: command :: u32be throttleBits) =
      .ok (.commandCb command (bytesToNatBE (u32be throttleBits))) := rfl
  rw [bytesToNatBE_u32be throttleBits ht] at hdec0
  refine ⟨hpack, by simp [u32be], hdec0, ?_⟩
  simp [tick, truthyBytes, hdec0]

/-- C3 witness: the round trip at command 5 and throttle 0.75 (float32 bit
pattern 0x3F400000 = 1061158912), the scenario of spec section 8.9. -/
theorem command_round_trip_witness :
    5 < 256 ∧ 1061158912 < 2 ^ 32 ∧
    handle_data (0xEE :: 0xAF :: 5 :: u32be 1061158912) = .ok (.commandCb 5 1061158912) :=
  ⟨by norm_num, by norm_num,
    (command_round_trip Connection.init 5 1061158912 (by norm_num) (by norm_num)).2.2.1⟩

/-- C4: three frames enqueued non-immediately dequeue in enqueue order
A, B, C; enqueuing A, B non-immediately and then C immediately dequeues
C, A, B, the immediate frame jumping to the front and being handed to the
transport first.  Dequeue order is observed through ticks with no inbound
data, each handing the popped head to _send_data. -/
theorem queue_ordering (A B C : Bytes) :
    enqueue (enqueue (enqueue [] A false) B false) C false = [A, B, C] ∧
    enqueue (enqueue (enqueue [] A false) B false) C true = [C, A, B] ∧
    (runLoop { queue := some [A, B, C], cancelled := false } [none, none, none]).map
      TickResult.sent = [some A, some B, some C] ∧
    (runLoop { queue := some [C, A, B], cancelled := false } [none, none, none]).map
      TickResult.sent = [some C, some A, some B] :=
  ⟨rfl, rfl, rfl, rfl⟩

/-- C5 counterexample: the claim states FIFO among frames enqueued with the
same priority, in particular among two immediate frames.  The code inserts
every immediate frame at position 0, so enqueuing frame [0] immediately and
then frame [1] immediately leaves the queue [[1], [0]], and the first idle
tick hands [1] — the frame enqueued second — to the transport, not [0]. -/
theorem immediate_enqueue_not_fifo :
    enqueue (enqueue [] [0] true) [1] true = [[1], [0]] ∧
    (tick { queue := some (enqueue (enqueue [] [0] true) [1] true), cancelled := false }
      none).1.sent = some [1] ∧
    some ([1] : Bytes) ≠ some ([0] : Bytes) := by
  refine ⟨rfl, rfl, by decide⟩

/-- C5 amended: among frames enqueued with send_immediately false, dequeue
order equals enqueue order (FIFO, they append behind the existing queue);
among frames enqueued with send_immediately true, the most recently enqueued
is dequeued first (LIFO), because each immediate enqueue inserts at
position 0. -/
theorem same_priority_order (q : List Bytes) (A B : Bytes) :
    enqueue (enqueue q A false) B false = q ++ [A, B] ∧
    enqueue (enqueue q A true) B true = B :: A :: q := by
  constructor
  · simp [enqueue]
  · rfl

/-- C6: half-duplex exclusivity of one tick: when the probe reports inbound
data the tick hands nothing to the transport send operation, and when the
tick hands a frame to the send operation it dispatches no received data
(invokes no callback) — a tick never does both. -/
theorem half_duplex_exclusive (st : ConnState) (c : Option Bytes) :
    (truthyBytes c = true → (tick st c).1.sent = none) ∧
    ((tick st c).1.sent.isSome = true → (tick st c).1.handled = .noCallback) := by
  obtain ⟨q, b⟩ := st
  by_cases h : truthyBytes c = true
  · have hsent : (tick ⟨q, b⟩ c).1.sent = none := by
      simp only [tick]
      rw [if_pos h]
      cases handle_data (c.getD []) <;> rfl
    exact ⟨fun _ => hsent, fun hs => by rw [hsent] at hs; exact absurd hs (by simp)⟩
  · refine ⟨fun ht => absurd ht h, fun _ => ?_⟩
    simp only [tick]
    rw [if_neg h]
    rcases q with _ | (_ | ⟨f, rest⟩) <;> rfl

/-- C6 witness: at a tick whose probe reports a one-byte frame nothing is
sent, and at an idle tick that pops a queued frame no callback is invoked. -/
theorem half_duplex_exclusive_witness :
    truthyBytes (some [0]) = true ∧
    (tick { queue := some [], cancelled := false } (some [0])).1.sent = none ∧
    (tick { queue := some [[5]], cancelled := false } none).1.handled = .noCallback :=
  ⟨by decide,
    (half_duplex_exclusive { queue := some [], cancelled := false } (some [0])).1 (by decide),
    (half_duplex_exclusive { queue := some [[5]], cancelled := false } none).2 (by decide)⟩

/-- C7: a received frame whose first two bytes are the magic 0xEEAF but
whose total length is not 7 raises struct.error from struct.unpack, so no
callback is invoked with garbage values; the loop wraps the error into
ConnectionDataFetchException and reports it (the errored tick ends the
trace), unlike an Unknown frame which yields a silent ok. -/
theorem malformed_frame_reported (payload : Bytes)
    (h2 : payload.take 2 = [0xEE, 0xAF]) (h7 : payload.length ≠ 7) :
    handle_data payload = .error .structError ∧
    runLoop { queue := some [], cancelled := false } [some payload, none] =
      [{ handled := .noCallback, sent := none, error := some .structError }] := by
  obtain ⟨rest, rfl⟩ : ∃ rest, payload = 0xEE :: 0xAF :: rest := by
    cases payload with
    | nil => simp at h2
    | cons a t =>
      cases t with
      | nil => simp at h2
      | cons b r =>
        simp only [List.take, List.cons.injEq] at h2
        exact ⟨r, by simp [h2.1, h2.2.1]⟩
  have h2 : struct_unpack_HBf (0xEE :: 0xAF :: rest) = .error .structError := by
    simp only [struct_unpack_HBf]
    rw [if_neg h7]
  have hdec : handle_data (0xEE :: 0xAF :: rest) = .error .structError := by
    have hstep : handle_data (0xEE :: 0xAF :: rest) =
        match struct_unpack_HBf (0xEE :: 0xAF :: rest) with
        | .error e => .error e
        | .ok (_, command, throttle) => .ok (.commandCb command throttle) := rfl
    rw [hstep, h2]
  refine ⟨hdec, ?_⟩
  simp [runLoop, tick, truthyBytes, hdec]

/-- C7 witness: the 3-byte frame EE AF 01 carries the command magic but not
7 bytes, and is rejected with struct.error. -/
theorem malformed_frame_reported_witness :
    ([0xEE, 0xAF, 1] : Bytes).take 2 = [0xEE, 0xAF] ∧
    ([0xEE, 0xAF, 1] : Bytes).length ≠ 7 ∧
    handle_data [0xEE, 0xAF, 1] = .error .structError :=
  ⟨by decide, by decide,
    (malformed_frame_reported [0xEE, 0xAF, 1] (by decide) (by decide)).1⟩

/-- C8: a received frame whose 16-bit header is neither 0xEEAF nor 0xEEAE
matches no case of _handle_data: neither callback is invoked, no error is
raised, the tick leaves the state unchanged, and the loop continues to the
next tick. -/
theorem unknown_magic_dropped (b0 b1 : Nat) (rest : Bytes) (q : List Bytes)
    (cs : List (Option Bytes))
    (hne1 : b0 * 256 + b1 ≠ 0xEEAF) (hne2 : b0 * 256 + b1 ≠ 0xEEAE) :
    handle_data (b0 :: b1 :: rest) = .ok .noCallback ∧
    tick { queue := some q, cancelled := false } (some (b0 :: b1 :: rest)) =
      ({ handled := .noCallback, sent := none, error := none },
        { queue := some q, cancelled := false }) ∧
    runLoop { queue := some q, cancelled := false } (some (b0 :: b1 :: rest) :: cs) =
      { handled := .noCallback, sent := none, error := none } ::
        runLoop { queue := some q, cancelled := false } cs := by
  have hne1b : ¬(bytesToNatBE [b0, b1] = 0xEEAF) := by
    simp only [bytesToNatBE, List.foldl_cons, List.foldl_nil]
    omega
  have hne2b : ¬(bytesToNatBE [b0, b1] = 0xEEAE) := by
    simp only [bytesToNatBE, List.foldl_cons, List.foldl_nil]
    omega
  have hdec : handle_data (b0 :: b1 :: rest) = .ok .noCallback := by
    have hstep : handle_data (b0 :: b1 :: rest) =
        if bytesToNatBE [b0, b1] = 0xEEAF then
          match struct_unpack_HBf (b0 :: b1 :: rest) with
          | .error e => .error e
          | .ok (_, command, throttle) => .ok (.commandCb command throttle)
        else if bytesToNatBE [b0, b1] = 0xEEAE then
          .ok (.binaryCb ((b0 :: b1 :: rest).drop 2))
        else
          .ok .noCallback := rfl
    rw [hstep, if_neg hne1b, if_neg hne2b]
  have htick : tick { queue := some q, cancelled := false } (some (b0 :: b1 :: rest)) =
      ({ handled := .noCallback, sent := none, error := none },
        { queue := some q, cancelled := false }) := by
    simp [tick, truthyBytes, hdec]
  refine ⟨hdec, htick, ?_⟩
  simp [runLoop, htick]

/-- C8 witness: the frame 00 00 07 (magic 0x0000) triggers neither callback
and the loop proceeds. -/
theorem unknown_magic_dropped_witness :
    (0 * 256 + 0 ≠ 0xEEAF) ∧ (0 * 256 + 0 ≠ 0xEEAE) ∧
    handle_data [0, 0, 7] = .ok .noCallback :=
  ⟨by decide, by decide,
    (unknown_magic_dropped 0 0 [7] [] [] (by decide) (by decide)).1⟩

/-- C9: stop is a total function (self._task is always assigned by __init__
and asyncio.Task.cancel never raises), calling it twice leaves exactly the
state one call leaves, and after cancellation no further tick runs — the
loop trace from a stopped state is empty whatever the transport reports, so
no callback fires and nothing is sent. -/
theorem stop_idempotent_no_further_ticks (st : ConnState) (cs : List (Option Bytes)) :
    stop (stop st) = stop st ∧ runLoop (stop st) cs = [] := by
  refine ⟨rfl, ?_⟩
  cases cs <;> simp [runLoop, stop]

/-- C10: a tick whose probe returns an empty byte string behaves exactly
like a tick whose probe returns none: the empty result is falsy, so the tick
invokes neither callback and takes the send branch, popping the queue head
when one exists. -/
theorem empty_bytes_like_none (st : ConnState) (f : Bytes) (q : List Bytes) :
    tick st (some []) = tick st none ∧
    (tick st (some [])).1.handled = .noCallback ∧
    (tick { queue := some (f :: q), cancelled := st.cancelled } (some [])).1.sent = some f := by
  refine ⟨rfl, ?_, rfl⟩
  obtain ⟨hq, hc⟩ := st
  rcases hq with _ | (_ | ⟨g, rest⟩) <;> rfl

end RemoteController
